import Mathlib

/-!
A shallow embedding of the training, sampling and evaluation code of the
fastmf repository (the Cython sources `fastmf/glove.pyx`, `cymf/glove.pyx`
and the BPR module), together with theorems checking the natural-language
specification against it.

Modelling conventions:
* C `double` values are modelled as exact rationals (`ℚ`); the claims under
  study are about the algebraic formulas computed, not about rounding.
* The C math functions `exp`, `log`, `sqrt` (imported by the source through
  `cdef extern from "math.h"`) are external to the repository, so they are
  abstract function parameters (`MathFns`) of the embedding.
* Dense matrices are modelled as total functions `ℕ → ℕ → ℚ`; the Cython
  memoryview writes become pointwise functional updates (`upd2`).
* Python exceptions are modelled with `Except String` / `Option`; an
  out-of-bounds memory access under `boundscheck(False)` is modelled as
  `none` (undefined behaviour).
* The parallel `prange` loops are modelled sequentially in sample order,
  which is the deterministic `num_threads = 1` behaviour; none of the
  claims below depends on a particular interleaving.
-/

/-- The math functions the source imports from "math.h"; abstract here. -/
structure MathFns where
  exp : ℚ → ℚ
  log : ℚ → ℚ
  sqrt : ℚ → ℚ

/-- Source (BPR module): `sigmoid(x) = 1.0 / (1.0 + exp(-x))`. -/
def sigmoid (F : MathFns) (x : ℚ) : ℚ := 1 / (1 + F.exp (-x))

/-- Source (BPR module): `square(x) = x * x`. -/
def square (x : ℚ) : ℚ := x * x

/-- One pointwise write to a dense matrix modelled as a total function. -/
def upd2 (f : ℕ → ℕ → ℚ) (r c : ℕ) (v : ℚ) : ℕ → ℕ → ℚ :=
  fun a b => if a = r ∧ b = c then v else f a b

/-- The state of the Cython `BprAdamUpdater` class: the two factor matrices
`W` and `H` (shared with the caller), the first and second moment
accumulators for each, and the scalar hyperparameters. -/
structure BprAdamUpdater where
  W : ℕ → ℕ → ℚ
  H : ℕ → ℕ → ℚ
  M_W : ℕ → ℕ → ℚ
  V_W : ℕ → ℕ → ℚ
  M_H : ℕ → ℕ → ℚ
  V_H : ℕ → ℕ → ℚ
  alpha : ℚ
  beta1 : ℚ
  beta2 : ℚ
  epsilon : ℚ
  weight_decay : ℚ

/-- `BprAdamUpdater.__init__`: moment matrices are `np.zeros`, and the
constants are `beta1 = 0.9`, `beta2 = 0.999`, `epsilon = 1e-8`,
`alpha = learning_rate`. -/
def BprAdamUpdater.start (W H : ℕ → ℕ → ℚ) (learning_rate weight_decay : ℚ) :
    BprAdamUpdater where
  W := W
  H := H
  M_W := fun _ _ => 0
  V_W := fun _ _ => 0
  M_H := fun _ _ => 0
  V_H := fun _ _ => 0
  alpha := learning_rate
  beta1 := 9/10
  beta2 := 999/1000
  epsilon := 1/100000000
  weight_decay := weight_decay

/-- `x_uij` accumulation loop of `BprAdamUpdater.loss`:
`x_uij += W[u, k] * (H[i, k] - H[j, k])` for `k in range(K)`. -/
def x_uij (S : BprAdamUpdater) (u i j K : ℕ) : ℚ :=
  Finset.sum (Finset.range K) fun k => S.W u k * (S.H i k - S.H j k)

/-- `l2_norm` accumulation loop of `BprAdamUpdater.loss`:
`l2_norm += square(W[u, k]) + square(H[i, k]) + square(H[j, k])`. -/
def l2norm (S : BprAdamUpdater) (u i j K : ℕ) : ℚ :=
  Finset.sum (Finset.range K) fun k =>
    square (S.W u k) + square (S.H i k) + square (S.H j k)

/-- `loss = - log(sigmoid(x_uij)) + weight_decay * l2_norm`. -/
def lossValue (F : MathFns) (S : BprAdamUpdater) (u i j K : ℕ) : ℚ :=
  - F.log (sigmoid F (x_uij S u i j K)) + S.weight_decay * l2norm S u i j K

/-- `grad_wuk = - (x_uij * (H[i, k] - H[j, k]) - weight_decay * W[u, k])`
where the reassigned variable `x_uij` is the sigmoid value `s`. -/
def grad_wuk (S : BprAdamUpdater) (s : ℚ) (u i j k : ℕ) : ℚ :=
  - (s * (S.H i k - S.H j k) - S.weight_decay * S.W u k)

/-- `grad_hik = - (x_uij * W[u, k] - weight_decay * H[i, k])`. -/
def grad_hik (S : BprAdamUpdater) (s : ℚ) (u i k : ℕ) : ℚ :=
  - (s * S.W u k - S.weight_decay * S.H i k)

/-- `grad_hjk = - (x_uij * (-W[u, k]) - weight_decay * H[j, k])`. -/
def grad_hjk (S : BprAdamUpdater) (s : ℚ) (u j k : ℕ) : ℚ :=
  - (s * (- S.W u k) - S.weight_decay * S.H j k)

/-- The body of the update loop of `BprAdamUpdater.loss` for one `k`:
the three gradients are computed first, then the three `M` writes, the
three `V` writes and the three parameter writes, in source order. -/
def BprAdamUpdater.updStep (F : MathFns) (s : ℚ) (u i j : ℕ)
    (S : BprAdamUpdater) (k : ℕ) : BprAdamUpdater :=
  let gw := grad_wuk S s u i j k
  let gi := grad_hik S s u i k
  let gj := grad_hjk S s u j k
  let S1 := { S with M_W := upd2 S.M_W u k (S.beta1 * S.M_W u k + (1 - S.beta1) * gw) }
  let S2 := { S1 with M_H := upd2 S1.M_H i k (S1.beta1 * S1.M_H i k + (1 - S1.beta1) * gi) }
  let S3 := { S2 with M_H := upd2 S2.M_H j k (S2.beta1 * S2.M_H j k + (1 - S2.beta1) * gj) }
  let S4 := { S3 with V_W := upd2 S3.V_W u k (S3.beta2 * S3.V_W u k + (1 - S3.beta2) * square gw) }
  let S5 := { S4 with V_H := upd2 S4.V_H i k (S4.beta2 * S4.V_H i k + (1 - S4.beta2) * square gi) }
  let S6 := { S5 with V_H := upd2 S5.V_H j k (S5.beta2 * S5.V_H j k + (1 - S5.beta2) * square gj) }
  let S7 := { S6 with W := upd2 S6.W u k (S6.W u k - S6.alpha * (S6.M_W u k / (1 - S6.beta1)) / (F.sqrt (S6.V_W u k / (1 - S6.beta2)) + S6.epsilon)) }
  let S8 := { S7 with H := upd2 S7.H i k (S7.H i k - S7.alpha * (S7.M_H i k / (1 - S7.beta1)) / (F.sqrt (S7.V_H i k / (1 - S7.beta2)) + S7.epsilon)) }
  { S8 with H := upd2 S8.H j k (S8.H j k - S8.alpha * (S8.M_H j k / (1 - S8.beta1)) / (F.sqrt (S8.V_H j k / (1 - S8.beta2)) + S8.epsilon)) }

/-- `BprAdamUpdater.loss(u, i, j, update)`: computes `x_uij` and `l2_norm`,
forms the loss, returns it unchanged-state when `update` is false, and
otherwise reassigns `x_uij = 1/(1 + exp(x_uij))` and runs the update loop
over `k in range(K)`.  Returns the loss together with the new state. -/
def BprAdamUpdater.loss (F : MathFns) (S : BprAdamUpdater) (u i j K : ℕ)
    (update : Bool) : ℚ × BprAdamUpdater :=
  let lossv := lossValue F S u i j K
  if update = false then (lossv, S)
  else
    let s := 1 / (1 + F.exp (x_uij S u i j K))
    (lossv, (List.range K).foldl (BprAdamUpdater.updStep F s u i j) S)

/-- The kinds of Python value a caller can pass as the input matrix `X`:
the three recognised scipy sparse formats, `None`, a dense `numpy` array,
or some other object without a `shape` attribute (e.g. a plain list). -/
inductive PyInput
  | noneV
  | lilMatrix
  | csrMatrix
  | cscMatrix
  | denseArray
  | pyList
deriving DecidableEq

/-- `isinstance(X, (sparse.lil_matrix, sparse.csr_matrix, sparse.csc_matrix))`. -/
def isScipySparse : PyInput → Bool
  | .lilMatrix => true
  | .csrMatrix => true
  | .cscMatrix => true
  | _ => false

/-- Whether evaluating `X.shape` succeeds (matrices and dense arrays have a
`shape` attribute; `None` and plain lists do not). -/
def hasShapeAttr : PyInput → Bool
  | .lilMatrix => true
  | .csrMatrix => true
  | .cscMatrix => true
  | .denseArray => true
  | _ => false

/-- What a `fit` entry point does first: either raise an exception before
any parameter is assigned, or assign the freshly allocated parameter
matrices to `self` (creating partial state). -/
inductive FitStart
  | raisedBeforeAlloc
  | allocatedParams
deriving DecidableEq

/-- `cymf/glove.pyx`, `GloVe.fit` lines 85-91: `if X is None: raise
ValueError()`, then `if not isinstance(X, (...)): raise TypeError(...)`,
and only then `self.W = np.random.uniform(...)`. -/
def cymfGloVeFitStart (X : PyInput) : FitStart :=
  if X = PyInput.noneV then .raisedBeforeAlloc
  else if isScipySparse X = false then .raisedBeforeAlloc
  else .allocatedParams

/-- `fastmf/glove.pyx`, `GloVe.fit` lines 57-62: the body immediately runs
`self.W = np.random.uniform(..., size=(X.shape[0], ...))` with no
validation; evaluating `X.shape` raises (before the assignment) exactly
when `X` has no `shape` attribute. -/
def fastmfGloVeFitStart (X : PyInput) : FitStart :=
  if hasShapeAttr X then .allocatedParams else .raisedBeforeAlloc

/-- BPR module, `BPR.fit` line 54: same shape as `fastmf`:
`self.W = np.random.uniform(..., size=(X.shape[0], ...))`, no validation. -/
def bprFitStart (X : PyInput) : FitStart :=
  if hasShapeAttr X then .allocatedParams else .raisedBeforeAlloc

/-- `cymf/glove.pyx` line 96:
`num_threads = num_threads if num_threads > 0 else cpucount()`. -/
def cymfResolveThreads (numThreads cpuCount : Int) : Int :=
  if numThreads > 0 then numThreads else cpuCount

/-- `fastmf/glove.pyx` line 67:
`num_threads = min(num_threads, multiprocessing.cpu_count())`. -/
def fastmfResolveThreads (numThreads cpuCount : Int) : Int :=
  min numThreads cpuCount

/-- BPR module line 56:
`num_threads = min(num_threads, multiprocessing.cpu_count())`. -/
def bprResolveThreads (numThreads cpuCount : Int) : Int :=
  min numThreads cpuCount

/-- The candidate array for one negative draw, BPR module line 119:
`(X[u]-1).nonzero()[0]`, i.e. the column indices of the user row whose
entry minus one is nonzero. -/
def negCandidates (row : List ℚ) : List ℕ :=
  (List.range row.length).filter fun t => decide (row.getD t 0 - 1 ≠ 0)

/-- The set the specification names: the indices of the zero entries of
the user row (the nonzero complement). -/
def zeroEntries (row : List ℚ) : List ℕ :=
  (List.range row.length).filter fun t => decide (row.getD t 0 = 0)

/-- The indices of the entries that are not exactly `1`. -/
def notOneEntries (row : List ℚ) : List ℕ :=
  (List.range row.length).filter fun t => decide (row.getD t 0 ≠ 1)

/-- `np.random.choice(a, size)`: raises `ValueError` on an empty candidate
array, otherwise returns `size` draws from `a`; the draws are selected by
the RNG stream `pick` (numpy draws each position uniformly from `a`). -/
def npChoice (a : List ℕ) (size : ℕ) (pick : ℕ → ℕ) : Except String (List ℕ) :=
  if a.length = 0 then Except.error "a must be non-empty"
  else Except.ok ((List.range size).map fun t => a.getD (pick t % a.length) 0)

/-- The negative-sample precomputation loop of `fit_bpr` (lines 117-120):
for each training sample index `l`, draw `iterations` negatives for user
`users[l]` from `negCandidates` of that user's dense row. -/
def precomputeNegatives (users : List ℕ) (X : List (List ℚ)) (iterations : ℕ)
    (pick : ℕ → ℕ → ℕ) : Except String (List (List ℕ)) :=
  (List.range users.length).mapM fun l =>
    npChoice (negCandidates (X.getD (users.getD l 0) [])) iterations (pick l)

/-- One training epoch of `fit_bpr` (lines 132-133), sequential order:
`loss[l] = updater.loss(users[l], positives[l], negatives[l, iteration],
update=True)` for `l in range(N)`; returns the final updater state and
the loss buffer contents in sample order. -/
def bprTrainEpoch (F : MathFns) (K : ℕ) (users positives : List ℕ)
    (negs : List (List ℕ)) (iteration : ℕ) (S : BprAdamUpdater) :
    BprAdamUpdater × List ℚ :=
  (List.range users.length).foldl
    (fun acc l =>
      ((BprAdamUpdater.loss F acc.1 (users.getD l 0) (positives.getD l 0)
          ((negs.getD l []).getD iteration 0) K true).2,
       acc.2 ++ [(BprAdamUpdater.loss F acc.1 (users.getD l 0) (positives.getD l 0)
          ((negs.getD l []).getD iteration 0) K true).1]))
    (S, [])

/-- Accumulation of the loss buffer (`for l in range(N): acc += loss[l]`). -/
def accumLoss (losses : List ℚ) : ℚ := losses.foldl (fun a b => a + b) 0

/-- Python float division: `a / n` raises `ZeroDivisionError` when `n = 0`
(the generated Cython code checks the divisor, since `cdivision` is not
enabled for these functions). -/
def pyFloatDiv (a : ℚ) (n : ℕ) : Except String ℚ :=
  if n = 0 then Except.error "float division" else Except.ok (a / n)

/-- The per-epoch loss report of `fastmf.fit_glove` (line 134):
`acc_loss / N` where `acc_loss` sums the loss buffer and `N` is the
number of samples (the length of the loss buffer). -/
def fitGloveEpochReport (losses : List ℚ) : Except String ℚ :=
  pyFloatDiv (accumLoss losses) losses.length

/-- The per-epoch loss metric of `fit_bpr` (lines 135-137):
`metrics["loss"] = (sum of loss buffer) / N`. -/
def bprEpochLossMetric (losses : List ℚ) : Except String ℚ :=
  pyFloatDiv (accumLoss losses) losses.length

/-- The epoch loop body of `fit_glove` over an abstract per-sample step
(the GloVe model itself lives in the external `model.pxd`, outside this
repository): sequentially runs `step` on every sample, collecting the
per-sample losses. -/
def fitGloveEpoch {σ α : Type} (step : σ → α → σ × ℚ) (st : σ)
    (samples : List α) : σ × List ℚ :=
  samples.foldl (fun acc sm => ((step acc.1 sm).1, acc.2 ++ [(step acc.1 sm).2])) (st, [])

/-- `fit_bpr` to the depth the claims need: precompute the negatives
(raising inside `np.random.choice` when a user row has no candidate),
then run the epochs, each reporting its mean training loss. -/
def fitBpr (F : MathFns) (K iterations : ℕ) (users positives : List ℕ)
    (X : List (List ℚ)) (pick : ℕ → ℕ → ℕ) (S : BprAdamUpdater) :
    Except String (BprAdamUpdater × List ℚ) :=
  match precomputeNegatives users X iterations pick with
  | Except.error e => Except.error e
  | Except.ok negs =>
    (List.range iterations).foldlM
      (fun acc it =>
        match bprEpochLossMetric (bprTrainEpoch F K users positives negs it acc.1).2 with
        | Except.error e => Except.error e
        | Except.ok m => Except.ok ((bprTrainEpoch F K users positives negs it acc.1).1, acc.2 ++ [m]))
      (S, [])

/-- A bounds-checked write into the loss buffer; `none` models the
out-of-bounds write that `boundscheck(False)` turns into undefined
behaviour. -/
def memWrite (buf : List ℚ) (idx : ℕ) (v : ℚ) : Option (List ℚ) :=
  if idx < buf.length then some (buf.set idx v) else none

/-- Sequentially write `f 0, f 1, ..., f (n-1)` into positions
`0, ..., n-1` of the buffer. -/
def writeSeq (f : ℕ → ℚ) (n : ℕ) (b : List ℚ) : Option (List ℚ) :=
  (List.range n).foldlM (fun bb l => memWrite bb l (f l)) b

/-- The validation pass of `fit_bpr` (lines 141-142): for
`l in range(users_valid.shape[0])` write
`loss[l] = updater.loss(users_valid[l], positives_valid[l],
negatives_valid[l, iteration], update=False)` into the loss buffer that
was allocated with the training sample count. -/
def bprValidationPass (F : MathFns) (K : ℕ) (usersValid positivesValid : List ℕ)
    (negsValid : List (List ℕ)) (iteration : ℕ) (S : BprAdamUpdater)
    (buf : List ℚ) : Option (List ℚ) :=
  (List.range usersValid.length).foldlM
    (fun bb l =>
      memWrite bb l
        (BprAdamUpdater.loss F S (usersValid.getD l 0) (positivesValid.getD l 0)
          ((negsValid.getD l []).getD iteration 0) K false).1)
    buf

/-- numpy broadcasting of one axis: two dimensions are compatible when
they are equal or one of them is `1`, and the broadcast dimension is the
larger one. -/
def numpyBroadcastDim (a b : ℕ) : Option ℕ :=
  if a = b then some a else if a = 1 then some b else if b = 1 then some a else none

/-- Whether `(self.W + _W) / 2.0` is defined for `self.W` of shape
`(r, K)` and `_W` of shape `(c, K)`: the trailing axes agree, so only the
row axes must broadcast. -/
def avgShapesCompatible (r c : ℕ) : Bool := (numpyBroadcastDim r c).isSome

/-- Both glove sources allocate the context bias with
`size=(X.shape[0],)` - the number of rows, not columns. -/
def contextBiasLen (r : ℕ) : ℕ := r

/-- Every context-word index (a nonzero column, hence any value below `c`)
stays inside the context bias vector exactly when `c ≤ contextBiasLen r`. -/
def gloveContextIndexSafe (r c : ℕ) : Bool := decide (c ≤ contextBiasLen r)

/-- `GloVe.fit` is well defined for every input of shape `(r, c)` when the
context-bias indexing cannot go out of bounds and the final averaging of
the two factor matrices is shape-compatible. -/
def gloveFitWellDefined (r c : ℕ) : Bool :=
  gloveContextIndexSafe r c && avgShapesCompatible r c

/-- Ascending comparison used to model `scores.argsort(axis=1)` on one
row: by score, with ties by original index (numpy argsort modelled as the
stable ascending sort of the index range). -/
def ascRel (s : ℕ → ℚ) (a b : ℕ) : Prop := s a < s b ∨ (s a = s b ∧ a ≤ b)

instance (s : ℕ → ℚ) : DecidableRel (ascRel s) := fun a b =>
  inferInstanceAs (Decidable (s a < s b ∨ (s a = s b ∧ a ≤ b)))

/-- One row of `scores.argsort(axis=1)`. -/
def argsortRow (s : ℕ → ℚ) (m : ℕ) : List ℕ :=
  List.insertionSort (ascRel s) (List.range m)

/-- One row of `scores.argsort(axis=1)[:,::-1][:,:10]` in `evaluate`:
reverse the ascending argsort and keep the first ten indices. -/
def topTen (s : ℕ → ℚ) (m : ℕ) : List ℕ := (argsortRow s m).reverse.take 10

/-- Descending comparison with ties broken by ascending index: the order
the specification claims (a stable descending sort). -/
def descTiesAscRel (s : ℕ → ℚ) (a b : ℕ) : Prop := s b < s a ∨ (s a = s b ∧ a ≤ b)

instance (s : ℕ → ℚ) : DecidableRel (descTiesAscRel s) := fun a b =>
  inferInstanceAs (Decidable (s b < s a ∨ (s a = s b ∧ a ≤ b)))

/-- The top-ten list the specification describes: a stable descending
sort of the indices (ties by ascending index), truncated to ten. -/
def claimedTopTen (s : ℕ → ℚ) (m : ℕ) : List ℕ :=
  (List.insertionSort (descTiesAscRel s) (List.range m)).take 10

/-- Descending comparison with ties broken by descending index: the order
the code actually produces. -/
def descTiesDescRel (s : ℕ → ℚ) (a b : ℕ) : Prop := s b < s a ∨ (s a = s b ∧ b ≤ a)

instance (s : ℕ → ℚ) : DecidableRel (descTiesDescRel s) := fun a b =>
  inferInstanceAs (Decidable (s b < s a ∨ (s a = s b ∧ b ≤ a)))

/-- Specification formula: `M = beta1*M + (1-beta1)*g`. -/
def adamSpecM (beta1 m g : ℚ) : ℚ := beta1 * m + (1 - beta1) * g

/-- Specification formula: `V = beta2*V + (1-beta2)*g^2`. -/
def adamSpecV (beta2 v g : ℚ) : ℚ := beta2 * v + (1 - beta2) * (g * g)

/-- Specification formula with the constant bias-correction denominators:
`param -= alpha * (M/(1-beta1)) / (sqrt(V/(1-beta2)) + eps)`. -/
def adamSpecParam (alpha beta1 beta2 eps : ℚ) (sq : ℚ → ℚ) (p m v : ℚ) : ℚ :=
  p - alpha * (m / (1 - beta1)) / (sq (v / (1 - beta2)) + eps)

/-- The textbook Adam parameter step with the time-step-dependent powers
`(1-beta1^t)` and `(1-beta2^t)` in the denominators. -/
def adamTextbookParam (alpha beta1 beta2 eps : ℚ) (sq : ℚ → ℚ) (t : ℕ)
    (p m v : ℚ) : ℚ :=
  p - alpha * (m / (1 - beta1 ^ t)) / (sq (v / (1 - beta2 ^ t)) + eps)

/-- The per-coordinate effect of one update-loop body: each of the nine
touched cells carries exactly the specification's Adam values for the
corresponding gradient, read off the pre-step state. -/
def AdamStepMatchesSpec (F : MathFns) (s : ℚ) (u i j k : ℕ)
    (S : BprAdamUpdater) : Prop :=
  (BprAdamUpdater.updStep F s u i j S k).M_W u k
      = adamSpecM S.beta1 (S.M_W u k) (grad_wuk S s u i j k)
  ∧ (BprAdamUpdater.updStep F s u i j S k).V_W u k
      = adamSpecV S.beta2 (S.V_W u k) (grad_wuk S s u i j k)
  ∧ (BprAdamUpdater.updStep F s u i j S k).W u k
      = adamSpecParam S.alpha S.beta1 S.beta2 S.epsilon F.sqrt (S.W u k)
          ((BprAdamUpdater.updStep F s u i j S k).M_W u k)
          ((BprAdamUpdater.updStep F s u i j S k).V_W u k)
  ∧ (BprAdamUpdater.updStep F s u i j S k).M_H i k
      = adamSpecM S.beta1 (S.M_H i k) (grad_hik S s u i k)
  ∧ (BprAdamUpdater.updStep F s u i j S k).V_H i k
      = adamSpecV S.beta2 (S.V_H i k) (grad_hik S s u i k)
  ∧ (BprAdamUpdater.updStep F s u i j S k).H i k
      = adamSpecParam S.alpha S.beta1 S.beta2 S.epsilon F.sqrt (S.H i k)
          ((BprAdamUpdater.updStep F s u i j S k).M_H i k)
          ((BprAdamUpdater.updStep F s u i j S k).V_H i k)
  ∧ (BprAdamUpdater.updStep F s u i j S k).M_H j k
      = adamSpecM S.beta1 (S.M_H j k) (grad_hjk S s u j k)
  ∧ (BprAdamUpdater.updStep F s u i j S k).V_H j k
      = adamSpecV S.beta2 (S.V_H j k) (grad_hjk S s u j k)
  ∧ (BprAdamUpdater.updStep F s u i j S k).H j k
      = adamSpecParam S.alpha S.beta1 S.beta2 S.epsilon F.sqrt (S.H j k)
          ((BprAdamUpdater.updStep F s u i j S k).M_H j k)
          ((BprAdamUpdater.updStep F s u i j S k).V_H j k)

/-- The initialisation facts of `BprAdamUpdater.__init__`: both moment
accumulator pairs start at zero and the constants are `0.9`, `0.999`,
`1e-8`, with `alpha` the caller's learning rate. -/
def AdamStartFacts : Prop :=
  ∀ (W H : ℕ → ℕ → ℚ) (lr wd : ℚ),
    (BprAdamUpdater.start W H lr wd).beta1 = 9/10
    ∧ (BprAdamUpdater.start W H lr wd).beta2 = 999/1000
    ∧ (BprAdamUpdater.start W H lr wd).epsilon = 1/100000000
    ∧ (BprAdamUpdater.start W H lr wd).alpha = lr
    ∧ (BprAdamUpdater.start W H lr wd).weight_decay = wd
    ∧ (BprAdamUpdater.start W H lr wd).M_W = (fun _ _ => 0)
    ∧ (BprAdamUpdater.start W H lr wd).V_W = (fun _ _ => 0)
    ∧ (BprAdamUpdater.start W H lr wd).M_H = (fun _ _ => 0)
    ∧ (BprAdamUpdater.start W H lr wd).V_H = (fun _ _ => 0)

/-- The full conclusion of claim C3: the update loop body realises the
specification's Adam rule with the constant denominators, the updater is
initialised as specified, and the constant-denominator step provably
differs from the textbook time-step-power step (shown at `t = 2` on the
first step from zero moments with unit gradient and `sq = id`). -/
def C3Conclusion (F : MathFns) (s : ℚ) (u i j k : ℕ) (S : BprAdamUpdater) : Prop :=
  AdamStepMatchesSpec F s u i j k S
  ∧ AdamStartFacts
  ∧ adamSpecParam 1 (9/10) (999/1000) (1/100000000) id 0
      (adamSpecM (9/10) 0 1) (adamSpecV (999/1000) 0 1)
    ≠ adamTextbookParam 1 (9/10) (999/1000) (1/100000000) id 2 0
      (adamSpecM (9/10) 0 1) (adamSpecV (999/1000) 0 1)

/-- Specification formula: `dot(w, h)` over `K` components. -/
def specDotRow (w h : ℕ → ℚ) (K : ℕ) : ℚ :=
  Finset.sum (Finset.range K) fun k => w k * h k

/-- Specification formula: a squared row norm over `K` components. -/
def specSqNormRow (w : ℕ → ℚ) (K : ℕ) : ℚ :=
  Finset.sum (Finset.range K) fun k => square (w k)

/-- The loss the specification states for `forward(u, i, j, update)`:
`-log(sigmoid(dot(W[u], H[i]-H[j]))) + weight_decay * (sqnorm(W[u]) +
sqnorm(H[i]) + sqnorm(H[j]))`. -/
def specBprLoss (F : MathFns) (S : BprAdamUpdater) (u i j K : ℕ) : ℚ :=
  - F.log (sigmoid F (specDotRow (S.W u) (fun k => S.H i k - S.H j k) K))
  + S.weight_decay *
      (specSqNormRow (S.W u) K + specSqNormRow (S.H i) K + specSqNormRow (S.H j) K)

/-- Conclusion of (amended) claim C1: cymf validates before allocating for
every unsupported input, while the fastmf GloVe and the BPR `fit` raise
early only for inputs without a `shape` attribute and, on a dense array,
allocate the parameters with no validation error at all. -/
def C1Conclusion (X : PyInput) : Prop :=
  (isScipySparse X = false → cymfGloVeFitStart X = FitStart.raisedBeforeAlloc)
  ∧ (hasShapeAttr X = false → fastmfGloVeFitStart X = FitStart.raisedBeforeAlloc)
  ∧ (hasShapeAttr X = false → bprFitStart X = FitStart.raisedBeforeAlloc)
  ∧ fastmfGloVeFitStart PyInput.denseArray = FitStart.allocatedParams
  ∧ bprFitStart PyInput.denseArray = FitStart.allocatedParams

/-- Conclusion of (amended) claim C2: the candidate set the sampler draws
from is exactly the set of items whose entry in the user's row is not
`1`, and this coincides with the zero-entry (non-interacted) set exactly
on 0/1-valued rows. -/
def C2Conclusion (row : List ℚ) : Prop :=
  negCandidates row = notOneEntries row
  ∧ ((∀ x ∈ row, x = 0 ∨ x = 1) → negCandidates row = zeroEntries row)

/-- Conclusion of (amended) claim C5: with zero samples every epoch loop
body is a no-op and the accumulated loss is `0`, but the mean-loss
division is unguarded, so the epoch raises a division error instead of
reporting `0`; with at least one sample it reports the mean. -/
def C5Conclusion (F : MathFns) (K : ℕ) (negs : List (List ℕ)) (iteration : ℕ)
    (S : BprAdamUpdater) : Prop :=
  bprTrainEpoch F K [] [] negs iteration S = (S, [])
  ∧ (∀ (σ α : Type) (step : σ → α → σ × ℚ) (st : σ),
      fitGloveEpoch step st ([] : List α) = (st, []))
  ∧ accumLoss [] = 0
  ∧ fitGloveEpochReport [] = Except.error "float division"
  ∧ bprEpochLossMetric [] = Except.error "float division"
  ∧ (∀ losses : List ℚ, losses ≠ [] →
      fitGloveEpochReport losses = Except.ok (accumLoss losses / losses.length))

/-- Conclusion of (amended) claim C6: cymf resolves non-positive thread
counts to the host core count and keeps positive ones, while the fastmf
GloVe and BPR `fit` take the minimum with the core count: they keep
non-positive values and cap positive values at the core count. -/
def C6Conclusion (n cpu : Int) : Prop :=
  (n ≤ 0 → cymfResolveThreads n cpu = cpu)
  ∧ (0 < n → cymfResolveThreads n cpu = n)
  ∧ (n ≤ 0 → 0 < cpu → fastmfResolveThreads n cpu = n)
  ∧ (n ≤ cpu → fastmfResolveThreads n cpu = n)
  ∧ (cpu ≤ n → fastmfResolveThreads n cpu = cpu)
  ∧ bprResolveThreads n cpu = fastmfResolveThreads n cpu

/-- Conclusion of (amended) claim C7: `fit_bpr` halts with the
`np.random.choice` error during negative-sample precomputation exactly
along the code's own notion of candidate: it errors when some training
sample's candidate array `(X[u]-1).nonzero()[0]` is empty (every entry of
that user's row exactly `1`), and it completes without halting whenever
every sample's candidate array is nonempty - which can happen even though
a user row has no zero entry, i.e. no genuinely eligible negative. -/
def C7Amended (F : MathFns) (K iterations : ℕ) (users positives : List ℕ)
    (X : List (List ℚ)) (pick : ℕ → ℕ → ℕ) (S : BprAdamUpdater) : Prop :=
  ((∃ l, l < users.length ∧ negCandidates (X.getD (users.getD l 0) []) = []) →
    fitBpr F K iterations users positives X pick S
      = Except.error "a must be non-empty")
  ∧ ((∀ l, l < users.length → negCandidates (X.getD (users.getD l 0) []) ≠ []) →
      users ≠ [] →
      (fitBpr F K iterations users positives X pick S).isOk = true)

/-- Conclusion of (amended) claim C8: the evaluator's top-ten list is the
first ten indices of the descending-score order whose ties are broken by
DESCENDING index (the reverse of a stable ascending argsort), and its
underlying argsort is a permutation of the index range. -/
def C8Conclusion (s : ℕ → ℚ) (m : ℕ) : Prop :=
  topTen s m = (List.insertionSort (descTiesDescRel s) (List.range m)).take 10
  ∧ List.Sorted (descTiesDescRel s) (argsortRow s m).reverse
  ∧ (argsortRow s m).Perm (List.range m)

/-- Conclusion of (amended) claim C10: for positive dimensions, `GloVe.fit`
is well defined exactly when the input is square or has a single column
(numpy broadcasting makes the final averaging legal when the context
matrix has one row, and the context bias stays in bounds since the claim
correctly notes it is allocated with `X.shape[0]` entries). -/
def C10Conclusion (r c : ℕ) : Prop :=
  contextBiasLen r = r
  ∧ (gloveFitWellDefined r c = true ↔ (r = c ∨ c = 1))

instance ascRelTotal (s : ℕ → ℚ) : IsTotal ℕ (ascRel s) where
  total a b := by
    unfold ascRel
    rcases lt_trichotomy (s a) (s b) with h | h | h
    · exact Or.inl (Or.inl h)
    · rcases Nat.le_total a b with hab | hab
      · exact Or.inl (Or.inr ⟨h, hab⟩)
      · exact Or.inr (Or.inr ⟨h.symm, hab⟩)
    · exact Or.inr (Or.inl h)

instance ascRelTrans (s : ℕ → ℚ) : IsTrans ℕ (ascRel s) where
  trans a b c hab hbc := by
    unfold ascRel at *
    rcases hab with h1 | ⟨e1, l1⟩ <;> rcases hbc with h2 | ⟨e2, l2⟩
    · exact Or.inl (h1.trans h2)
    · exact Or.inl (by rw [← e2]; exact h1)
    · exact Or.inl (by rw [e1]; exact h2)
    · exact Or.inr ⟨e1.trans e2, l1.trans l2⟩

instance descTiesDescRelTotal (s : ℕ → ℚ) : IsTotal ℕ (descTiesDescRel s) where
  total a b := by
    unfold descTiesDescRel
    rcases lt_trichotomy (s a) (s b) with h | h | h
    · exact Or.inr (Or.inl h)
    · rcases Nat.le_total a b with hab | hab
      · exact Or.inr (Or.inr ⟨h.symm, hab⟩)
      · exact Or.inl (Or.inr ⟨h, hab⟩)
    · exact Or.inl (Or.inl h)

instance descTiesDescRelTrans (s : ℕ → ℚ) : IsTrans ℕ (descTiesDescRel s) where
  trans a b c hab hbc := by
    unfold descTiesDescRel at *
    rcases hab with h1 | ⟨e1, l1⟩ <;> rcases hbc with h2 | ⟨e2, l2⟩
    · exact Or.inl (h2.trans h1)
    · exact Or.inl (by rw [← e2]; exact h1)
    · exact Or.inl (by rw [e1]; exact h2)
    · exact Or.inr ⟨e1.trans e2, l2.trans l1⟩

instance descTiesDescRelAntisymm (s : ℕ → ℚ) : IsAntisymm ℕ (descTiesDescRel s) where
  antisymm a b hab hba := by
    unfold descTiesDescRel at *
    rcases hab with h1 | ⟨e1, l1⟩ <;> rcases hba with h2 | ⟨e2, l2⟩
    · exact absurd h2 (lt_asymm h1)
    · exact absurd h1 (by rw [e2]; exact lt_irrefl _)
    · exact absurd h2 (by rw [e1]; exact lt_irrefl _)
    · exact Nat.le_antisymm l2 l1

/-- C1 counterexample: a dense numpy array is not a recognised sparse type,
yet the fastmf `GloVe.fit` does not raise before allocating: it assigns
the freshly drawn parameter matrices to `self` with no validation, contrary
to the claim that every such input is rejected before any work begins. -/
theorem C1_claim_counterexample :
    isScipySparse PyInput.denseArray = false
    ∧ fastmfGloVeFitStart PyInput.denseArray ≠ FitStart.raisedBeforeAlloc
    ∧ bprFitStart PyInput.denseArray ≠ FitStart.raisedBeforeAlloc := by
  decide

/-- C1 amended: the cymf `GloVe.fit` raises a validation error before
allocating for every non-sparse input (including `None`); the fastmf
`GloVe.fit` and `BPR.fit` raise before allocating only when the input has
no `shape` attribute, and on a dense array they allocate parameters
(partial state) without any validation error. -/
theorem C1_input_validation_amended (X : PyInput) : C1Conclusion X := by
  unfold C1Conclusion
  cases X <;> decide

/-- C2 counterexample: for the user row `[1, 2]`, item `1` has a nonzero
entry (the user interacted with it, value `2`), yet it is in the sampler's
candidate set `(X[u]-1).nonzero()[0]`, so the negatives are not drawn from
the zero entries of the row. -/
theorem C2_claim_counterexample :
    negCandidates [1, 2] ≠ zeroEntries [1, 2]
    ∧ 1 ∈ negCandidates [1, 2]
    ∧ ¬ (([1, 2] : List ℚ).getD 1 0 = 0) := by
  norm_num [negCandidates, zeroEntries, List.filter, List.getD]

/-- C2 amended: the candidate set for a negative draw is the set of items
whose entry in the user's row is not exactly `1`; it equals the
non-interacted (zero-entry) set exactly when the row is 0/1-valued. -/
theorem C2_negative_candidates_amended (row : List ℚ) : C2Conclusion row := by
  constructor
  · unfold negCandidates notOneEntries
    apply List.filter_congr
    intro t _
    simp only [decide_eq_decide]
    exact sub_ne_zero
  · intro hb
    unfold negCandidates zeroEntries
    apply List.filter_congr
    intro t ht
    simp only [decide_eq_decide]
    have htl : t < row.length := List.mem_range.mp ht
    have hmem : row.getD t 0 ∈ row := by
      rw [List.getD_eq_getElem row 0 htl]
      exact List.getElem_mem htl
    rcases hb _ hmem with h0 | h1
    · rw [h0]; norm_num
    · rw [h1]; norm_num

/-- C4: with `update=False`, `BprAdamUpdater.loss` returns exactly the
specification's loss `-log(sigmoid(dot(W[u], H[i]-H[j]))) + weight_decay *
(sqnorm(W[u]) + sqnorm(H[i]) + sqnorm(H[j]))` and leaves the factor
matrices and all optimizer accumulators unchanged. -/
theorem C4_loss_without_update_pure (F : MathFns) (S : BprAdamUpdater)
    (u i j K : ℕ) :
    BprAdamUpdater.loss F S u i j K false = (specBprLoss F S u i j K, S) := by
  have h2 : l2norm S u i j K
      = specSqNormRow (S.W u) K + specSqNormRow (S.H i) K + specSqNormRow (S.H j) K := by
    unfold l2norm specSqNormRow
    rw [Finset.sum_add_distrib, Finset.sum_add_distrib]
  show (lossValue F S u i j K, S) = (specBprLoss F S u i j K, S)
  rw [Prod.mk.injEq]
  refine ⟨?_, rfl⟩
  unfold lossValue specBprLoss
  rw [h2]
  rfl

/-- C5 counterexample: with zero samples the epoch does not report a loss
of `0`: the unguarded division `acc_loss / N` (glove) and
`metrics["loss"] /= N` (BPR) raise a division error at `N = 0`. -/
theorem C5_claim_counterexample :
    fitGloveEpochReport [] = Except.error "float division"
    ∧ fitGloveEpochReport [] ≠ Except.ok 0
    ∧ bprEpochLossMetric [] = Except.error "float division"
    ∧ bprEpochLossMetric [] ≠ Except.ok 0 := by
  refine ⟨rfl, ?_, rfl, ?_⟩ <;> intro h <;> exact Except.noConfusion h

/-- C5 amended: with zero samples every epoch loop body is a no-op (the
BPR loop returns the updater unchanged with an empty loss buffer, and the
glove loop returns its state unchanged for any per-sample step) and the
accumulated loss is `0`; but the mean-loss division has no sample-count
guard, so the epoch raises a division error instead of reporting `0`,
while with at least one sample it reports the mean loss. -/
theorem C5_zero_samples_amended (F : MathFns) (K : ℕ) (negs : List (List ℕ))
    (iteration : ℕ) (S : BprAdamUpdater) : C5Conclusion F K negs iteration S := by
  refine ⟨rfl, fun σ α step st => rfl, rfl, rfl, rfl, ?_⟩
  intro losses h
  unfold fitGloveEpochReport pyFloatDiv
  rw [if_neg]
  exact fun hl => h (List.length_eq_zero.mp hl)

/-- C6 counterexample: with `num_threads = 0` and a host core count of
`8`, the fastmf/BPR resolution `min(num_threads, cpu_count())` yields `0`,
not the core count `8`; and the positive value `16` is capped to `8`
rather than used as given. -/
theorem C6_claim_counterexample :
    fastmfResolveThreads 0 8 = 0
    ∧ (0 : Int) ≠ 8
    ∧ fastmfResolveThreads 16 8 = 8
    ∧ (16 : Int) ≠ 8
    ∧ bprResolveThreads 0 8 = 0 := by
  decide

/-- C6 amended: the cymf `GloVe.fit` resolves a non-positive
`num_threads` to the host core count and uses a positive value as given;
the fastmf `GloVe.fit` and `BPR.fit` instead take the minimum with the
core count, keeping non-positive values as passed and capping positive
values at the core count. -/
theorem C6_thread_resolution_amended (n cpu : Int) : C6Conclusion n cpu := by
  unfold C6Conclusion cymfResolveThreads fastmfResolveThreads bprResolveThreads
  refine ⟨?_, ?_, ?_, ?_, ?_, rfl⟩
  · intro h; rw [if_neg (by omega)]
  · intro h; rw [if_pos (by omega)]
  · intro h1 h2; exact min_eq_left (by omega)
  · intro h; exact min_eq_left h
  · intro h; exact min_eq_right h

/-- C10 counterexample: a `2 x 1` input matrix is not square, yet
`GloVe.fit` is well defined on it: the context bias (2 entries) covers
every context index (below 1), and numpy broadcasting makes the final
`(self.W + _W) / 2.0` of shapes `(2, K)` and `(1, K)` legal. -/
theorem C10_claim_counterexample :
    gloveFitWellDefined 2 1 = true ∧ (2 : ℕ) ≠ 1 := by
  decide

/-- C10 amended: for positive dimensions `r, c`, `GloVe.fit` is well
defined on every `(r, c)`-shaped input exactly when `r = c` or `c = 1`;
the context bias is indeed allocated with `X.shape[0]` entries as the
claim observes, but numpy broadcasting also admits the single-column
case, so squareness is not required. -/
theorem C10_square_fit_amended (r c : ℕ) (hr : 1 ≤ r) (hc : 1 ≤ c) :
    C10Conclusion r c := by
  refine ⟨rfl, ?_⟩
  unfold gloveFitWellDefined gloveContextIndexSafe avgShapesCompatible
  unfold numpyBroadcastDim contextBiasLen
  split_ifs with h1 h2 h3 <;> simp <;> omega

/-- Witness for C10 at the concrete non-square shape `(2, 1)`. -/
theorem C10_witness : 1 ≤ 2 ∧ 1 ≤ 1 ∧ C10Conclusion 2 1 :=
  ⟨by decide, by decide, C10_square_fit_amended 2 1 (by decide) (by decide)⟩

/-- C3: the update loop body of `BprAdamUpdater.loss` realises, on each of
the nine cells it touches (for distinct positive and negative items), the
specification's Adam rule `M = b1*M + (1-b1)*g`, `V = b2*V + (1-b2)*g^2`,
`param -= alpha * (M/(1-b1)) / (sqrt(V/(1-b2)) + eps)` with the CONSTANT
denominators `(1-b1)`, `(1-b2)`; the accumulators start at zero with
`b1 = 0.9`, `b2 = 0.999`, `eps = 1e-8`; and the constant-denominator step
differs from the textbook time-step-power step. -/
theorem C3_adam_update_rule (F : MathFns) (s : ℚ) (u i j k : ℕ)
    (S : BprAdamUpdater) (hij : i ≠ j) : C3Conclusion F s u i j k S := by
  refine ⟨?_, ?_, ?_⟩
  · unfold AdamStepMatchesSpec BprAdamUpdater.updStep
    unfold adamSpecM adamSpecV adamSpecParam square
    simp only [upd2]
    refine ⟨?_, ?_, ?_, ?_, ?_, ?_, ?_, ?_, ?_⟩ <;>
      simp [hij, Ne.symm hij]
  · intro W H lr wd
    exact ⟨rfl, rfl, rfl, rfl, rfl, rfl, rfl, rfl, rfl⟩
  · unfold adamSpecParam adamTextbookParam adamSpecM adamSpecV
    norm_num

/-- Witness for C3 at a concrete state with distinct items `i = 0`,
`j = 1`. -/
theorem C3_witness :
    (0 : ℕ) ≠ 1
    ∧ C3Conclusion ⟨id, id, id⟩ (1/2) 0 0 1 0
        (BprAdamUpdater.start (fun _ _ => 1) (fun _ _ => 1) (1/100) (1/100)) :=
  ⟨by decide, C3_adam_update_rule ⟨id, id, id⟩ (1/2) 0 0 1 0
    (BprAdamUpdater.start (fun _ _ => 1) (fun _ _ => 1) (1/100) (1/100)) (by decide)⟩

/-- If some element of the index list has an empty candidate list, the
`mapM` of `np.random.choice` calls propagates the choice error. -/
theorem mapM_npChoice_error (g : ℕ → List ℕ) (iters : ℕ) (pick : ℕ → ℕ → ℕ) :
    ∀ L : List ℕ, (∃ a ∈ L, g a = []) →
      (L.mapM fun l => npChoice (g l) iters (pick l))
        = Except.error "a must be non-empty" := by
  intro L
  induction L with
  | nil =>
    rintro ⟨a, ha, _⟩
    exact absurd ha (List.not_mem_nil a)
  | cons x xs ih =>
    rintro ⟨a, ha, hg⟩
    rw [List.mapM_cons]
    rcases List.mem_cons.mp ha with rfl | hmem
    · have hx : npChoice (g a) iters (pick a) = Except.error "a must be non-empty" := by
        unfold npChoice
        rw [hg]
        rfl
      rw [hx]
      rfl
    · cases hnp : npChoice (g x) iters (pick x) with
      | error e =>
        have he : e = "a must be non-empty" := by
          unfold npChoice at hnp
          split at hnp
          · exact (Except.error.injEq _ _).mp hnp.symm
          · exact absurd hnp (by simp)
        subst he
        rfl
      | ok y =>
        have hxs := ih ⟨a, hmem, hg⟩
        rw [hxs]
        rfl

/-- If every element of the index list has a nonempty candidate list,
every `np.random.choice` call succeeds and the `mapM` returns `ok`. -/
theorem mapM_npChoice_ok (g : ℕ → List ℕ) (iters : ℕ) (pick : ℕ → ℕ → ℕ) :
    ∀ L : List ℕ, (∀ a ∈ L, g a ≠ []) →
      ∃ ys, (L.mapM fun l => npChoice (g l) iters (pick l)) = Except.ok ys := by
  intro L
  induction L with
  | nil =>
    intro _
    exact ⟨[], rfl⟩
  | cons x xs ih =>
    intro h
    obtain ⟨ys, hys⟩ := ih fun a ha => h a (List.mem_cons_of_mem x ha)
    have hx : npChoice (g x) iters (pick x)
        = Except.ok ((List.range iters).map fun t => (g x).getD (pick x t % (g x).length) 0) := by
      unfold npChoice
      rw [if_neg]
      exact fun hl => h x (List.mem_cons_self x xs) (List.length_eq_zero.mp hl)
    rw [List.mapM_cons, hx, hys]
    exact ⟨_, rfl⟩

/-- The loss buffer produced by one training epoch has one entry per
training sample. -/
theorem bprTrainEpoch_losses_length (F : MathFns) (K : ℕ)
    (users positives : List ℕ) (negs : List (List ℕ)) (iteration : ℕ)
    (S : BprAdamUpdater) :
    (bprTrainEpoch F K users positives negs iteration S).2.length = users.length := by
  unfold bprTrainEpoch
  have hgen : ∀ (L : List ℕ) (acc : BprAdamUpdater × List ℚ),
      (L.foldl (fun acc l =>
        ((BprAdamUpdater.loss F acc.1 (users.getD l 0) (positives.getD l 0)
            ((negs.getD l []).getD iteration 0) K true).2,
         acc.2 ++ [(BprAdamUpdater.loss F acc.1 (users.getD l 0) (positives.getD l 0)
            ((negs.getD l []).getD iteration 0) K true).1])) acc).2.length
        = acc.2.length + L.length := by
    intro L
    induction L with
    | nil =>
      intro acc
      simp
    | cons x xs ih =>
      intro acc
      rw [List.foldl_cons, ih]
      simp only [List.length_append, List.length_cons, List.length_nil]
      omega
  rw [hgen]
  simp

/-- When the training sample list is nonempty, the per-epoch mean-loss
division never fails, so the epoch fold of `fit_bpr` returns `ok`. -/
theorem bprEpochsFold_ok (F : MathFns) (K : ℕ) (users positives : List ℕ)
    (negs : List (List ℕ)) (hlen : users.length ≠ 0) :
    ∀ (its : List ℕ) (acc : BprAdamUpdater × List ℚ),
      ∃ out,
        (its.foldlM (fun acc it =>
          match bprEpochLossMetric (bprTrainEpoch F K users positives negs it acc.1).2 with
          | Except.error e => Except.error e
          | Except.ok m => Except.ok ((bprTrainEpoch F K users positives negs it acc.1).1,
              acc.2 ++ [m])) acc)
          = Except.ok out := by
  intro its
  induction its with
  | nil =>
    intro acc
    exact ⟨acc, rfl⟩
  | cons x xs ih =>
    intro acc
    rw [List.foldlM_cons]
    have hm : bprEpochLossMetric (bprTrainEpoch F K users positives negs x acc.1).2
        = Except.ok (accumLoss (bprTrainEpoch F K users positives negs x acc.1).2
            / (users.length : ℚ)) := by
      unfold bprEpochLossMetric pyFloatDiv
      rw [bprTrainEpoch_losses_length, if_neg hlen]
    rw [hm]
    exact ih _

/-- Whenever every training sample's candidate array is nonempty and
there is at least one sample, `fit_bpr` runs to completion. -/
theorem fitBpr_completes (F : MathFns) (K iterations : ℕ)
    (users positives : List ℕ) (X : List (List ℚ)) (pick : ℕ → ℕ → ℕ)
    (S : BprAdamUpdater)
    (hall : ∀ l, l < users.length → negCandidates (X.getD (users.getD l 0) []) ≠ [])
    (hne : users ≠ []) :
    (fitBpr F K iterations users positives X pick S).isOk = true := by
  obtain ⟨ys, hys⟩ := mapM_npChoice_ok
    (fun l => negCandidates (X.getD (users.getD l 0) [])) iterations pick
    (List.range users.length)
    (fun a ha => hall a (List.mem_range.mp ha))
  have hpre : precomputeNegatives users X iterations pick = Except.ok ys := hys
  have hlen : users.length ≠ 0 := fun h0 => hne (List.length_eq_zero.mp h0)
  obtain ⟨out, hout⟩ :=
    bprEpochsFold_ok F K users positives ys hlen (List.range iterations) (S, [])
  have hfit : fitBpr F K iterations users positives X pick S = Except.ok out := by
    unfold fitBpr
    rw [hpre]
    exact hout
  rw [hfit]
  rfl

/-- C7 counterexample: for the user row `[1, 2]` there is no eligible
(non-interacted, zero-entry) negative item at all, yet `fit` does NOT
halt during negative-sample precomputation: the candidate array
`(X[u]-1).nonzero()[0]` is `[1]` - item 1 is an item the user interacted
with (entry 2) - `np.random.choice` succeeds, and `fit_bpr` runs to
completion, silently training with an interacted item as the negative. -/
theorem C7_claim_counterexample :
    zeroEntries [1, 2] = []
    ∧ negCandidates [1, 2] = [1]
    ∧ ([1, 2] : List ℚ).getD 1 0 = 2
    ∧ (fitBpr ⟨id, id, id⟩ 1 1 [0] [0] [[1, 2]] (fun _ _ => 0)
        (BprAdamUpdater.start (fun _ _ => 0) (fun _ _ => 0) 0 0)).isOk = true
    ∧ fitBpr ⟨id, id, id⟩ 1 1 [0] [0] [[1, 2]] (fun _ _ => 0)
        (BprAdamUpdater.start (fun _ _ => 0) (fun _ _ => 0) 0 0)
      ≠ Except.error "a must be non-empty" := by
  have hc : negCandidates [1, 2] = [1] := by
    norm_num [negCandidates, List.filter, List.getD]
  have hall : ∀ l, l < ([0] : List ℕ).length →
      negCandidates (([[1, 2]] : List (List ℚ)).getD (([0] : List ℕ).getD l 0) []) ≠ [] := by
    intro l hl
    simp only [List.length_cons, List.length_nil] at hl
    have hl0 : l = 0 := by omega
    subst hl0
    show negCandidates [1, 2] ≠ []
    rw [hc]
    simp
  have hok := fitBpr_completes ⟨id, id, id⟩ 1 1 [0] [0] [[1, 2]] (fun _ _ => 0)
    (BprAdamUpdater.start (fun _ _ => 0) (fun _ _ => 0) 0 0) hall (by simp)
  refine ⟨?_, hc, ?_, hok, ?_⟩
  · norm_num [zeroEntries, List.filter, List.getD]
  · norm_num [List.getD]
  · intro h
    have hf : (Except.error "a must be non-empty"
        : Except String (BprAdamUpdater × List ℚ)).isOk = false := rfl
    rw [h, hf] at hok
    exact Bool.noConfusion hok

/-- C7 amended: `fit_bpr` halts with the `np.random.choice` error during
negative-sample precomputation exactly when some training sample's
candidate array `(X[u]-1).nonzero()[0]` (the entries different from `1`)
is empty; when every candidate array is nonempty - even for a user row
with no zero entry, hence no genuinely eligible negative - `fit` does not
halt and trains to completion. -/
theorem C7_no_eligible_negative_amended (F : MathFns) (K iterations : ℕ)
    (users positives : List ℕ) (X : List (List ℚ)) (pick : ℕ → ℕ → ℕ)
    (S : BprAdamUpdater) :
    C7Amended F K iterations users positives X pick S := by
  constructor
  · intro h
    unfold fitBpr
    have hpre : precomputeNegatives users X iterations pick
        = Except.error "a must be non-empty" := by
      unfold precomputeNegatives
      apply mapM_npChoice_error
      rcases h with ⟨l, hl, hc⟩
      exact ⟨l, List.mem_range.mpr hl, hc⟩
    rw [hpre]
  · intro hall hne
    exact fitBpr_completes F K iterations users positives X pick S hall hne

/-- C8 counterexample: on a row of two equal scores, the code's top list
`argsort()[::-1][:10]` is `[1, 0]` - ties come out in DESCENDING index
order - while the claimed stable descending sort gives `[0, 1]`. -/
theorem C8_claim_counterexample :
    topTen (fun _ => (1 : ℚ)) 2 = [1, 0]
    ∧ claimedTopTen (fun _ => (1 : ℚ)) 2 = [0, 1]
    ∧ topTen (fun _ => (1 : ℚ)) 2 ≠ claimedTopTen (fun _ => (1 : ℚ)) 2 := by
  norm_num [topTen, claimedTopTen, argsortRow, List.insertionSort,
    List.orderedInsert, ascRel, descTiesAscRel, List.range_succ]

/-- C8 amended: the evaluator's top-ten list consists of the indices of
the ten highest scores in descending score order, but ties among equal
scores are broken by DESCENDING index (the reverse of a stable ascending
argsort), not ascending; the underlying index list is a permutation of
the row's index range sorted by that order. -/
theorem C8_top_k_order_amended (s : ℕ → ℚ) (m : ℕ) : C8Conclusion s m := by
  have hperm1 : (argsortRow s m).Perm (List.range m) :=
    List.perm_insertionSort (ascRel s) (List.range m)
  have hsort1 : List.Sorted (ascRel s) (argsortRow s m) :=
    List.sorted_insertionSort (ascRel s) (List.range m)
  have hsortrev : List.Sorted (descTiesDescRel s) (argsortRow s m).reverse := by
    rw [List.Sorted, List.pairwise_reverse]
    refine hsort1.imp ?_
    intro a b hab
    rcases hab with h | ⟨e, l⟩
    · exact Or.inl h
    · exact Or.inr ⟨e.symm, l⟩
  have hsort2 : List.Sorted (descTiesDescRel s)
      (List.insertionSort (descTiesDescRel s) (List.range m)) :=
    List.sorted_insertionSort (descTiesDescRel s) (List.range m)
  have hperm : ((argsortRow s m).reverse).Perm
      (List.insertionSort (descTiesDescRel s) (List.range m)) :=
    ((List.reverse_perm (argsortRow s m)).trans hperm1).trans
      (List.perm_insertionSort (descTiesDescRel s) (List.range m)).symm
  have heq : (argsortRow s m).reverse
      = List.insertionSort (descTiesDescRel s) (List.range m) :=
    List.eq_of_perm_of_sorted hperm hsortrev hsort2
  refine ⟨?_, hsortrev, hperm1⟩
  unfold topTen
  rw [heq]

/-- A `memWrite` that succeeds preserves the buffer length. -/
theorem memWrite_length {b : List ℚ} {i : ℕ} {v : ℚ} {b2 : List ℚ}
    (h : memWrite b i v = some b2) : b2.length = b.length := by
  unfold memWrite at h
  split at h
  · cases h
    exact List.length_set b i v
  · exact absurd h (by simp)

/-- Splitting one write off the end of a sequential write run. -/
theorem writeSeq_succ (f : ℕ → ℚ) (n : ℕ) (b : List ℚ) :
    writeSeq f (n + 1) b = (writeSeq f n b).bind fun bb => memWrite bb n (f n) := by
  unfold writeSeq
  rw [List.range_succ, List.foldlM_append]
  cases (List.range n).foldlM (fun bb l => memWrite bb l (f l)) b with
  | none => rfl
  | some bb =>
    show (memWrite bb n (f n)).bind (fun b2 => some b2) = memWrite bb n (f n)
    cases memWrite bb n (f n) <;> rfl

/-- A successful sequential write run preserves the buffer length. -/
theorem writeSeq_length (f : ℕ → ℚ) :
    ∀ (n : ℕ) (b bb : List ℚ), writeSeq f n b = some bb → bb.length = b.length := by
  intro n
  induction n with
  | zero =>
    intro b bb h
    unfold writeSeq at h
    rw [List.range_zero] at h
    cases h
    rfl
  | succ n ih =>
    intro b bb h
    rw [writeSeq_succ] at h
    cases hw : writeSeq f n b with
    | none => rw [hw] at h; exact absurd h (by simp)
    | some bmid =>
      rw [hw] at h
      exact (memWrite_length h).trans (ih b bmid hw)

/-- The sequential write run of `n` values into a buffer stays in bounds
exactly when `n` does not exceed the buffer length. -/
theorem writeSeq_isSome (f : ℕ → ℚ) :
    ∀ (n : ℕ) (b : List ℚ), (writeSeq f n b).isSome = true ↔ n ≤ b.length := by
  intro n
  induction n with
  | zero =>
    intro b
    constructor
    · intro _; exact Nat.zero_le _
    · intro _
      unfold writeSeq
      rw [List.range_zero]
      rfl
  | succ n ih =>
    intro b
    rw [writeSeq_succ]
    cases hw : writeSeq f n b with
    | none =>
      simp only [Option.bind]
      constructor
      · intro h; exact absurd h (by simp)
      · intro h
        have hn : n ≤ b.length := Nat.le_of_succ_le h
        have := (ih b).mpr hn
        rw [hw] at this
        exact absurd this (by simp)
    | some bb =>
      have hlen : bb.length = b.length := writeSeq_length f n b bb hw
      simp only [Option.some_bind]
      unfold memWrite
      constructor
      · intro h
        split at h
        · omega
        · exact absurd h (by simp)
      · intro h
        rw [if_pos (by omega)]
        rfl

/-- C9: the BPR validation pass writes its per-sample losses into the loss
buffer allocated with the TRAINING sample count `N = users.length`; every
write is in bounds if and only if the validation set has at most `N`
samples, so (with bounds checking disabled) a larger validation set
writes past the end of the buffer. -/
theorem C9_validation_buffer_bounds (F : MathFns) (K : ℕ)
    (users usersValid positivesValid : List ℕ) (negsValid : List (List ℕ))
    (iteration : ℕ) (S : BprAdamUpdater) :
    (bprValidationPass F K usersValid positivesValid negsValid iteration S
        (List.replicate users.length 0)).isSome = true
      ↔ usersValid.length ≤ users.length := by
  have h := writeSeq_isSome
    (fun l => (BprAdamUpdater.loss F S (usersValid.getD l 0) (positivesValid.getD l 0)
       ((negsValid.getD l []).getD iteration 0) K false).1)
    usersValid.length (List.replicate users.length 0)
  rw [List.length_replicate] at h
  exact h
